import Mathlib

/-!
Verification of the retrieval-and-context-assembly layer in `src/main.py`.

The pipeline fetches records from a vector store, sorts them by a
timestamp payload field (descending, stable), paginates, extracts one
text field per record via an ordered fallback list, joins the texts with
newlines, and truncates the joined text to a token budget under a named
tokenization scheme, returning the final context and its token count.

The tokenizer itself (the `tiktoken` library) is external to the
repository; following the design document it is modelled as a
deterministic text-to-token-sequence codec, a pair of `encode` and
`decode` functions over an abstract token type.
-/

namespace DummyFastAPI

/-- A scalar payload value of a stored record: the payloads in
`src/main.py` are duck-typed mappings whose values are coerced with
Python's `str` before being joined into the context. -/
inductive Value where
  | str (s : String)
  | int (n : Int)
deriving DecidableEq, Repr

/-- Python's `str(...)` coercion applied to a payload scalar
(`src/main.py` line 135). -/
def valueStr : Value → String
  | Value.str s => s
  | Value.int n => toString n

/-- A record's payload: a mapping from field names to scalar values,
modelled as an association list with the first binding of a key
authoritative (Python dicts have unique keys). -/
abbrev Payload := List (String × Value)

/-- One retrieved record: an identifier plus a payload mapping
(a Qdrant point as consumed by `search_client`). -/
structure Point where
  id : Nat
  payload : Payload
deriving DecidableEq, Repr

/-- A tokenization scheme: a deterministic text-to-token-sequence codec
over token type `τ`, modelling a `tiktoken` encoding object with its
`encode` and `decode` methods. -/
structure Encoding (τ : Type) where
  encode : String → List τ
  decode : List τ → String

/-- Modelled from the spec: `tiktoken.encoding_for_model` is library code
outside the repository. The registry of known schemes is a partial map
from model names to codecs; per the design document an unrecognized
scheme identifier fails with `UnsupportedTokenizationScheme`, which the
endpoint's exception handler turns into the structured error payload. -/
def encoding_for_model {τ : Type} (registry : String → Option (Encoding τ))
    (model : String) : Except String (Encoding τ) :=
  match registry model with
  | some enc => Except.ok enc
  | none => Except.error ("UnsupportedTokenizationScheme: " ++ model)

/-- `prepare_context_for_llm` (`src/main.py` lines 2-14): join the texts
with a newline separator, tokenize, and if the token count exceeds
`max_tokens` keep exactly the first `max_tokens` tokens and decode them
back to text; the returned count is the length of the token sequence
actually kept. A failed scheme lookup propagates as an error. -/
def prepare_context_for_llm {τ : Type} (registry : String → Option (Encoding τ))
    (texts : List String) (model : String) (max_tokens : Nat) :
    Except String (String × Nat) :=
  match encoding_for_model registry model with
  | Except.error e => Except.error e
  | Except.ok enc =>
    let combined := String.intercalate "\n" texts
    let tokens := enc.encode combined
    if tokens.length > max_tokens then
      let kept := tokens.take max_tokens
      Except.ok (enc.decode kept, kept.length)
    else
      Except.ok (combined, tokens.length)

/-- A concrete character-level codec used to instantiate witnesses:
every character is one token. -/
def charEncoding : Encoding Char where
  encode s := s.data
  decode ts := String.mk ts

/-- A concrete one-scheme registry recognizing only the default model
name of the endpoints. -/
def charRegistry : String → Option (Encoding Char) :=
  fun m => if m = "gpt-4-turbo" then some charEncoding else none

/-- The sort key of the Record Selector (`src/main.py` lines 122-124):
`payload.get('timestamp', '')`. The embedding assumes timestamp values
are strings; a non-string timestamp mixed with strings would make
Python's `sorted` raise, which the endpoint handler would surface as the
structured error payload, outside the well-typed domain modelled here. -/
def get_timestamp (p : Point) : String :=
  match p.payload.lookup "timestamp" with
  | some (Value.str s) => s
  | _ => ""

/-- Boolean comparator realizing Python's
`sorted(points, key=get_timestamp, reverse=True)`: `a` may precede `b`
when the key of `b` is at most the key of `a`. Python's sort is stable
and `reverse=True` keeps tied elements in fetch order, which is exactly
stable merge sort under this comparator. -/
def ts_ge (a b : Point) : Bool :=
  get_timestamp b ≤ get_timestamp a

/-- `points_sorted` (`src/main.py` line 125): stable descending sort of
the fetched batch by timestamp. -/
def sort_points (points : List Point) : List Point :=
  points.mergeSort ts_ge

/-- The pagination slice `points_sorted[offset:offset+limit]`
(`src/main.py` line 127). -/
def page_points (points : List Point) (offset limit : Nat) : List Point :=
  ((sort_points points).drop offset).take limit

/-- Field-list parsing (`src/main.py` line 129):
`[f.strip() for f in include_fields.split(",") if f.strip()]`. -/
def parse_fields (include_fields : String) : List String :=
  ((include_fields.splitOn ",").map String.trim).filter (fun f => f ≠ "")

/-- The inner loop of the Field Extractor (`src/main.py` lines 133-136):
the first field of the ordered list present in the payload wins and is
coerced with `str`; if none is present the record contributes nothing. -/
def first_field_value (fields : List String) (payload : Payload) : Option String :=
  match fields with
  | [] => none
  | f :: rest =>
    match payload.lookup f with
    | some v => some (valueStr v)
    | none => first_field_value rest payload

/-- The Field Extractor over the paged window (`src/main.py`
lines 130-136): records with none of the requested fields are skipped,
not replaced by an empty string. -/
def extract_texts (fields : List String) (points : List Point) : List String :=
  points.filterMap (fun p => first_field_value fields p.payload)

/-- A serialized point of the response payload (`src/main.py`
lines 138-143): the embedded `Point` always carries both `id` and
`payload`, so serialization is the pair of them. -/
def serialize_point (p : Point) : Nat × Payload :=
  (p.id, p.payload)

/-- The three response dictionary shapes of the endpoints: the success
shape (`src/main.py` lines 144-153), the no-results shape (lines
114-120) and the error shape (lines 156-161), each carrying exactly the
keys of the corresponding Python dict literal. -/
inductive SearchResponse where
  | results (points : List (Nat × Payload)) (context : String) (token_count : Nat)
      (limit offset : Nat) (fields : List String) (model : String) (max_tokens : Nat)
  | noResults (points : List (Nat × Payload)) (context : String) (token_count : Nat)
      (message : String)
  | failure (points : List (Nat × Payload)) (context : String) (token_count : Nat)
      (error : String)
deriving DecidableEq, Repr

/-- Whether the response dictionary carries a message key: only the
no-results shape does. -/
def has_message : SearchResponse → Bool
  | SearchResponse.noResults _ _ _ _ => true
  | _ => false

/-- Whether the response dictionary carries an error key: only the error
shape does. -/
def has_error : SearchResponse → Bool
  | SearchResponse.failure _ _ _ _ => true
  | _ => false

/-- A scalar value of an equality filter sent to the store adapter. -/
inductive FilterValue where
  | int (n : Int)
  | str (s : String)
deriving DecidableEq, Repr

/-- The equality filter of the `/search-client` endpoint (`src/main.py`
lines 106-110): single-key, with the client identifier hardcoded to
`123`; the endpoint takes no client identifier parameter. -/
def search_client_filter : List (String × FilterValue) :=
  [("client_id", FilterValue.int 123)]

/-- The equality filter of the `/search-client-lead` endpoint
(`src/main.py` lines 188-193): both `client_id` and `lead_id` are
required query parameters and both keys are ANDed in the filter. -/
def search_client_lead_filter (client_id : Int) (lead_id : String) :
    List (String × FilterValue) :=
  [("client_id", FilterValue.int client_id), ("lead_id", FilterValue.str lead_id)]

/-- The body of the `/search-client` endpoint (`src/main.py` lines
91-161). The store fetch (a `scroll` call asking for `limit + offset`
candidates with the filter `search_client_filter`) is the external
collaborator; its outcome is the `fetch` argument. Any fault — a failed
fetch or a tokenizer fault after a successful fetch — is caught by the
surrounding handler and becomes the error shape with empty points,
empty context and zero count; no partial context survives. -/
def search_client {τ : Type} (registry : String → Option (Encoding τ))
    (fetch : Except String (List Point))
    (limit offset max_tokens : Nat) (model include_fields : String) :
    SearchResponse :=
  match fetch with
  | Except.error e => SearchResponse.failure [] "" 0 e
  | Except.ok points =>
    if points.isEmpty then
      SearchResponse.noResults [] "" 0 "No results found."
    else
      let paged_points := page_points points offset limit
      let fields := parse_fields include_fields
      let payload_texts := extract_texts fields paged_points
      match prepare_context_for_llm registry payload_texts model max_tokens with
      | Except.error e => SearchResponse.failure [] "" 0 e
      | Except.ok (context, token_count) =>
        SearchResponse.results (paged_points.map serialize_point)
          context token_count limit offset fields model max_tokens

/-- The body of the `/search-client-lead` endpoint (`src/main.py` lines
169-244): identical pipeline to `/search-client`, with the store fetch
filtered by `search_client_lead_filter client_id lead_id`. The client
and lead identifiers only shape the filter, so given the fetch outcome
the response is computed the same way. -/
def search_client_lead {τ : Type} (registry : String → Option (Encoding τ))
    (client_id : Int) (lead_id : String)
    (fetch : Except String (List Point))
    (limit offset max_tokens : Nat) (model include_fields : String) :
    SearchResponse :=
  match fetch with
  | Except.error e => SearchResponse.failure [] "" 0 e
  | Except.ok points =>
    if points.isEmpty then
      SearchResponse.noResults [] "" 0 "No results found."
    else
      let paged_points := page_points points offset limit
      let fields := parse_fields include_fields
      let payload_texts := extract_texts fields paged_points
      match prepare_context_for_llm registry payload_texts model max_tokens with
      | Except.error e => SearchResponse.failure [] "" 0 e
      | Except.ok (context, token_count) =>
        SearchResponse.results (paged_points.map serialize_point)
          context token_count limit offset fields model max_tokens

/-- Unfolding lemma for the assembler once the scheme lookup succeeds. -/
lemma prepare_ok {τ : Type} (registry : String → Option (Encoding τ))
    (model : String) (enc : Encoding τ) (texts : List String) (max_tokens : Nat)
    (hreg : registry model = some enc) :
    prepare_context_for_llm registry texts model max_tokens =
      if (enc.encode (String.intercalate "\n" texts)).length > max_tokens then
        Except.ok
          (enc.decode ((enc.encode (String.intercalate "\n" texts)).take max_tokens),
           ((enc.encode (String.intercalate "\n" texts)).take max_tokens).length)
      else
        Except.ok
          (String.intercalate "\n" texts,
           (enc.encode (String.intercalate "\n" texts)).length) := by
  unfold prepare_context_for_llm encoding_for_model
  rw [hreg]

/-- Claim C1: every context result carries a token count equal to the
exact number of tokens of the returned text under the chosen scheme
(the scheme being a codec, re-encoding the decoded kept tokens yields
them back), and in the truncation branch the count is re-derived as the
length of the kept token sequence, never estimated. -/
theorem assemble_token_count_exact {τ : Type} (registry : String → Option (Encoding τ))
    (model : String) (enc : Encoding τ) (texts : List String) (max_tokens : Nat)
    (text : String) (token_count : Nat)
    (hreg : registry model = some enc)
    (hcodec : ∀ ts : List τ, enc.encode (enc.decode ts) = ts)
    (hrun : prepare_context_for_llm registry texts model max_tokens
              = Except.ok (text, token_count)) :
    token_count = (enc.encode text).length
    ∧ ((enc.encode (String.intercalate "\n" texts)).length > max_tokens →
       token_count
         = ((enc.encode (String.intercalate "\n" texts)).take max_tokens).length) := by
  rw [prepare_ok registry model enc texts max_tokens hreg] at hrun
  by_cases hc : (enc.encode (String.intercalate "\n" texts)).length > max_tokens
  · rw [if_pos hc] at hrun
    simp only [Except.ok.injEq, Prod.mk.injEq] at hrun
    obtain ⟨h1, h2⟩ := hrun
    subst h1
    subst h2
    exact ⟨by rw [hcodec], fun _ => rfl⟩
  · rw [if_neg hc] at hrun
    simp only [Except.ok.injEq, Prod.mk.injEq] at hrun
    obtain ⟨h1, h2⟩ := hrun
    subst h1
    subst h2
    exact ⟨rfl, fun h => absurd h hc⟩

/-- Witness for C1: a concrete truncated run under the character codec. -/
theorem assemble_token_count_exact_witness :
    3 = (charEncoding.encode "abc").length
    ∧ ((charEncoding.encode (String.intercalate "\n" ["abcdef"])).length > 3 →
       3 = ((charEncoding.encode (String.intercalate "\n" ["abcdef"])).take 3).length) :=
  assemble_token_count_exact charRegistry "gpt-4-turbo" charEncoding
    ["abcdef"] 3 "abc" 3 rfl (fun _ => rfl) rfl

/-- Claim C2: when the joined text exceeds the budget, the assembler
returns exactly the decoding of the first `max_tokens` tokens of the
joined string together with a count equal to `max_tokens`. -/
theorem truncation_law {τ : Type} (registry : String → Option (Encoding τ))
    (model : String) (enc : Encoding τ) (texts : List String) (max_tokens : Nat)
    (hreg : registry model = some enc)
    (hover : (enc.encode (String.intercalate "\n" texts)).length > max_tokens) :
    prepare_context_for_llm registry texts model max_tokens
      = Except.ok
          (enc.decode ((enc.encode (String.intercalate "\n" texts)).take max_tokens),
           max_tokens) := by
  rw [prepare_ok registry model enc texts max_tokens hreg, if_pos hover]
  have hlen : ((enc.encode (String.intercalate "\n" texts)).take max_tokens).length
      = max_tokens := by
    rw [List.length_take]
    exact min_eq_left (Nat.le_of_lt hover)
  rw [hlen]

/-- Witness for C2: six character tokens truncated to a budget of three. -/
theorem truncation_law_witness :
    prepare_context_for_llm charRegistry ["abcdef"] "gpt-4-turbo" 3
      = Except.ok
          (charEncoding.decode
            ((charEncoding.encode (String.intercalate "\n" ["abcdef"])).take 3), 3) :=
  truncation_law charRegistry "gpt-4-turbo" charEncoding ["abcdef"] 3 rfl (by decide)

/-- Claim C3: when the joined text fits the budget the assembler returns
the full join unchanged with the true untruncated count, and the empty
input sequence yields the empty context with count zero. -/
theorem no_truncation_law {τ : Type} (registry : String → Option (Encoding τ))
    (model : String) (enc : Encoding τ) (texts : List String) (max_tokens : Nat)
    (hreg : registry model = some enc)
    (hle : (enc.encode (String.intercalate "\n" texts)).length ≤ max_tokens)
    (hempty : enc.encode "" = []) :
    prepare_context_for_llm registry texts model max_tokens
      = Except.ok
          (String.intercalate "\n" texts,
           (enc.encode (String.intercalate "\n" texts)).length)
    ∧ (texts = [] →
       prepare_context_for_llm registry texts model max_tokens = Except.ok ("", 0)) := by
  constructor
  · rw [prepare_ok registry model enc texts max_tokens hreg,
      if_neg (Nat.not_lt.mpr hle)]
  · intro ht
    subst ht
    rw [prepare_ok registry model enc [] max_tokens hreg]
    have hjoin : String.intercalate "\n" ([] : List String) = "" := rfl
    rw [hjoin, hempty]
    simp

/-- Witness for C3: the empty input sequence under the character codec. -/
theorem no_truncation_law_witness :
    (prepare_context_for_llm charRegistry [] "gpt-4-turbo" 8000
      = Except.ok
          (String.intercalate "\n" [],
           (charEncoding.encode (String.intercalate "\n" [])).length))
    ∧ (([] : List String) = [] →
       prepare_context_for_llm charRegistry [] "gpt-4-turbo" 8000 = Except.ok ("", 0)) :=
  no_truncation_law charRegistry "gpt-4-turbo" charEncoding [] 8000 rfl (by decide) rfl

/-- The descending-by-timestamp comparator is transitive. -/
lemma ts_ge_trans (a b c : Point) (h1 : ts_ge a b = true) (h2 : ts_ge b c = true) :
    ts_ge a c = true := by
  simp only [ts_ge, decide_eq_true_eq] at *
  exact le_trans h2 h1

/-- The descending-by-timestamp comparator is total. -/
lemma ts_ge_total (a b : Point) : (ts_ge a b || ts_ge b a) = true := by
  simp only [ts_ge, Bool.or_eq_true, decide_eq_true_eq]
  exact le_total (get_timestamp b) (get_timestamp a)

/-- Stability of the selector's sort: for any timestamp value, the
records carrying it appear in the sorted batch in their original fetch
order. -/
lemma sort_points_filter_stable (points : List Point) (t : String) :
    (sort_points points).filter (fun p => get_timestamp p == t)
      = points.filter (fun p => get_timestamp p == t) := by
  have hpair : (points.filter (fun p => get_timestamp p == t)).Pairwise
      (fun a b => ts_ge a b = true) := by
    refine List.pairwise_of_forall_mem_list ?_
    intro a ha b hb
    have ha2 := (List.mem_filter.mp ha).2
    have hb2 := (List.mem_filter.mp hb).2
    simp only [beq_iff_eq] at ha2 hb2
    simp only [ts_ge, decide_eq_true_eq, ha2, hb2, le_refl]
  have hsub : (points.filter (fun p => get_timestamp p == t)).Sublist
      (sort_points points) :=
    List.sublist_mergeSort ts_ge_trans ts_ge_total hpair
      (List.filter_sublist points)
  have hsub2 : (points.filter (fun p => get_timestamp p == t)).Sublist
      ((sort_points points).filter (fun p => get_timestamp p == t)) := by
    have h := hsub.filter (fun p => get_timestamp p == t)
    rwa [List.filter_filter, show
      (fun a => (get_timestamp a == t) && (get_timestamp a == t))
        = fun p => (get_timestamp p == t) from by
          funext p
          rw [Bool.and_self]] at h
  have hperm : ((sort_points points).filter (fun p => get_timestamp p == t)).Perm
      (points.filter (fun p => get_timestamp p == t)) :=
    (List.mergeSort_perm points ts_ge).filter _
  exact (hsub2.eq_of_length hperm.length_eq.symm).symm

/-- Claim C4: the Record Selector sorts the fetched batch into a stable,
descending lexicographic order by the timestamp field — records missing
the field sort as the empty string, which ranks below every timestamp,
ties keeping fetch order — and returns the contiguous window
`[offset, offset+limit)` of the sorted batch, of length at most `limit`,
with an offset beyond the batch yielding an empty window rather than an
error. -/
theorem record_selector_spec (points : List Point) (offset limit : Nat) :
    (sort_points points).Perm points
    ∧ (sort_points points).Pairwise
        (fun a b => get_timestamp b ≤ get_timestamp a)
    ∧ (∀ t : String, (sort_points points).filter (fun p => get_timestamp p == t)
        = points.filter (fun p => get_timestamp p == t))
    ∧ (∀ p : Point, p.payload.lookup "timestamp" = none → get_timestamp p = "")
    ∧ (∀ p q : Point, p.payload.lookup "timestamp" = none →
        get_timestamp p ≤ get_timestamp q)
    ∧ (page_points points offset limit).IsInfix (sort_points points)
    ∧ (page_points points offset limit).length ≤ limit
    ∧ (points.length ≤ offset → page_points points offset limit = []) := by
  refine ⟨List.mergeSort_perm points ts_ge, ?_, fun t =>
    sort_points_filter_stable points t, ?_, ?_, ?_, ?_, ?_⟩
  · have h := List.sorted_mergeSort ts_ge_trans ts_ge_total points
    exact h.imp (fun hab => by simpa [ts_ge, decide_eq_true_eq] using hab)
  · intro p hnone
    unfold get_timestamp
    rw [hnone]
  · intro p q hnone
    have hp : get_timestamp p = "" := by
      unfold get_timestamp
      rw [hnone]
    rw [hp, String.le_iff_toList_le]
    exact List.nil_le
  · have h1 := List.take_prefix limit ((sort_points points).drop offset)
    have h2 := List.drop_suffix offset (sort_points points)
    exact h1.isInfix.trans h2.isInfix
  · rw [page_points, List.length_take]
    exact min_le_left _ _
  · intro hoff
    have hlen : (sort_points points).length = points.length :=
      (List.mergeSort_perm points ts_ge).length_eq
    rw [page_points, List.drop_eq_nil_of_le (hlen ▸ hoff), List.take_nil]

/-- Witness for C4: a singleton batch with no timestamp field, paged
past its end. -/
theorem record_selector_spec_witness :
    page_points [Point.mk 1 []] 2 5 = [] ∧ get_timestamp (Point.mk 1 []) = "" :=
  ⟨(record_selector_spec [Point.mk 1 []] 2 5).2.2.2.2.2.2.2 (by decide),
   (record_selector_spec [Point.mk 1 []] 2 5).2.2.2.1 (Point.mk 1 []) rfl⟩

/-- The extractor's loop picks exactly the first field of the ordered
list that is present in the payload. -/
lemma first_field_value_eq_find (fields : List String) (payload : Payload) :
    first_field_value fields payload
      = (fields.find? (fun f => (payload.lookup f).isSome)).bind
          (fun f => (payload.lookup f).map valueStr) := by
  induction fields with
  | nil => rfl
  | cons f rest ih =>
    cases h : payload.lookup f with
    | none => simp [first_field_value, List.find?_cons, h, ih]
    | some v => simp [first_field_value, List.find?_cons, h]

/-- Claim C5: each record of the selected window contributes the textual
coercion of the value of the first listed field present in its payload;
a record with none of the listed fields present is skipped outright, so
the extracted text list can be shorter than the window. -/
theorem field_extractor_spec (fields : List String) (points : List Point) :
    (∀ payload : Payload, first_field_value fields payload
        = (fields.find? (fun f => (payload.lookup f).isSome)).bind
            (fun f => (payload.lookup f).map valueStr))
    ∧ (∀ p ∈ points, (∀ f ∈ fields, p.payload.lookup f = none) →
        first_field_value fields p.payload = none)
    ∧ (extract_texts fields points).length ≤ points.length := by
  refine ⟨fun payload => first_field_value_eq_find fields payload, ?_, ?_⟩
  · intro p _ hall
    rw [first_field_value_eq_find]
    have hfind : fields.find? (fun f => (p.payload.lookup f).isSome) = none := by
      rw [List.find?_eq_none]
      intro f hf
      rw [hall f hf]
      simp
    rw [hfind]
    rfl
  · exact List.length_filterMap_le _ _

/-- Witness for C5: the spec's scenario payload, and a record with no
requested field being skipped. -/
theorem field_extractor_spec_witness :
    first_field_value ["summary", "text"] [("text", Value.str "B")]
      = ((["summary", "text"].find?
            (fun f => (([("text", Value.str "B")] : Payload).lookup f).isSome)).bind
          (fun f => (([("text", Value.str "B")] : Payload).lookup f).map valueStr))
    ∧ first_field_value ["summary", "text"] (Point.mk 7 []).payload = none :=
  ⟨(field_extractor_spec ["summary", "text"] [Point.mk 7 []]).1
      [("text", Value.str "B")],
   (field_extractor_spec ["summary", "text"] [Point.mk 7 []]).2.1
      (Point.mk 7 []) (by decide) (by decide)⟩

/-- Claim C6: every fault — a failed store fetch, or a tokenizer fault
after a successful fetch — is converted by both endpoints into the
structured error shape with empty points, empty context and zero token
count; no raw fault and no partial context reaches the caller. -/
theorem fault_isolation {τ : Type} (registry : String → Option (Encoding τ))
    (limit offset max_tokens : Nat) (model include_fields : String)
    (client_id : Int) (lead_id : String) :
    (∀ e, search_client registry (Except.error e) limit offset max_tokens
        model include_fields = SearchResponse.failure [] "" 0 e)
    ∧ (∀ points e, points ≠ [] →
        prepare_context_for_llm registry
            (extract_texts (parse_fields include_fields)
              (page_points points offset limit)) model max_tokens
          = Except.error e →
        search_client registry (Except.ok points) limit offset max_tokens
            model include_fields = SearchResponse.failure [] "" 0 e)
    ∧ (∀ e, search_client_lead registry client_id lead_id (Except.error e)
        limit offset max_tokens model include_fields
          = SearchResponse.failure [] "" 0 e)
    ∧ (∀ points e, points ≠ [] →
        prepare_context_for_llm registry
            (extract_texts (parse_fields include_fields)
              (page_points points offset limit)) model max_tokens
          = Except.error e →
        search_client_lead registry client_id lead_id (Except.ok points)
            limit offset max_tokens model include_fields
          = SearchResponse.failure [] "" 0 e) := by
  refine ⟨fun e => rfl, ?_, fun e => rfl, ?_⟩ <;>
  · intro points e hne hprep
    have hemp : points.isEmpty = false := by
      simpa [List.isEmpty_iff] using hne
    simp [search_client, search_client_lead, hemp, hprep]

/-- Witness for C6: a tokenizer fault after a successful non-empty fetch
is returned as the error shape with no partial context. -/
theorem fault_isolation_witness :
    search_client (fun _ => (none : Option (Encoding Char)))
        (Except.ok [Point.mk 1 []]) 10 0 8000 "mystery-model" "summary,text"
      = SearchResponse.failure [] "" 0
          ("UnsupportedTokenizationScheme: " ++ "mystery-model") :=
  (fault_isolation (fun _ => (none : Option (Encoding Char))) 10 0 8000
      "mystery-model" "summary,text" 123 "lead-1").2.1
    [Point.mk 1 []] ("UnsupportedTokenizationScheme: " ++ "mystery-model")
    (by decide) rfl

/-- Claim C7: a fetch returning zero records yields the explicit
no-results shape with empty context and zero count, a non-error shape
carrying a message key and no error key. -/
theorem no_results_shape {τ : Type} (registry : String → Option (Encoding τ))
    (limit offset max_tokens : Nat) (model include_fields : String)
    (client_id : Int) (lead_id : String) :
    search_client registry (Except.ok []) limit offset max_tokens model
        include_fields = SearchResponse.noResults [] "" 0 "No results found."
    ∧ search_client_lead registry client_id lead_id (Except.ok []) limit offset
        max_tokens model include_fields
      = SearchResponse.noResults [] "" 0 "No results found."
    ∧ has_error (search_client registry (Except.ok []) limit offset max_tokens
        model include_fields) = false
    ∧ has_message (search_client registry (Except.ok []) limit offset max_tokens
        model include_fields) = true :=
  ⟨rfl, rfl, rfl, rfl⟩

/-- Claim C8 counterexample: a retrieval with an unrecognized scheme but
zero fetched records returns the no-results shape, not the
`UnsupportedTokenizationScheme` error payload — the tokenizer is never
consulted on the empty-batch path. -/
theorem unsupported_scheme_counterexample :
    search_client (fun _ => (none : Option (Encoding Char))) (Except.ok [])
        10 0 8000 "not-a-model" "summary,text"
      = SearchResponse.noResults [] "" 0 "No results found."
    ∧ has_error (search_client (fun _ => (none : Option (Encoding Char)))
        (Except.ok []) 10 0 8000 "not-a-model" "summary,text") = false :=
  ⟨rfl, rfl⟩

/-- Claim C8 as amended: on every retrieval whose fetch succeeds with at
least one record, an unrecognized scheme identifier makes the operation
fail with the `UnsupportedTokenizationScheme` error surfaced through the
structured error payload; with zero fetched records the no-results shape
is returned instead, the tokenizer never being consulted. -/
theorem unsupported_scheme_error {τ : Type} (registry : String → Option (Encoding τ))
    (points : List Point) (limit offset max_tokens : Nat)
    (model include_fields : String) (client_id : Int) (lead_id : String)
    (hreg : registry model = none) (hne : points ≠ []) :
    search_client registry (Except.ok points) limit offset max_tokens model
        include_fields
      = SearchResponse.failure [] "" 0 ("UnsupportedTokenizationScheme: " ++ model)
    ∧ search_client_lead registry client_id lead_id (Except.ok points) limit
        offset max_tokens model include_fields
      = SearchResponse.failure [] "" 0 ("UnsupportedTokenizationScheme: " ++ model)
    ∧ search_client registry (Except.ok []) limit offset max_tokens model
        include_fields = SearchResponse.noResults [] "" 0 "No results found." := by
  have hemp : points.isEmpty = false := by
    simpa [List.isEmpty_iff] using hne
  have hprep : ∀ texts : List String,
      prepare_context_for_llm registry texts model max_tokens
        = Except.error ("UnsupportedTokenizationScheme: " ++ model) := by
    intro texts
    unfold prepare_context_for_llm encoding_for_model
    rw [hreg]
  refine ⟨?_, ?_, rfl⟩ <;> simp [search_client, search_client_lead, hemp, hprep]

/-- Witness for the amended C8: one fetched record and a scheme the
registry does not know. -/
theorem unsupported_scheme_error_witness :
    search_client (fun _ => (none : Option (Encoding Char)))
        (Except.ok [Point.mk 1 []]) 10 0 8000 "not-a-model" "summary,text"
      = SearchResponse.failure [] "" 0
          ("UnsupportedTokenizationScheme: " ++ "not-a-model")
    ∧ search_client_lead (fun _ => (none : Option (Encoding Char))) 123 "lead-1"
        (Except.ok [Point.mk 1 []]) 10 0 8000 "not-a-model" "summary,text"
      = SearchResponse.failure [] "" 0
          ("UnsupportedTokenizationScheme: " ++ "not-a-model")
    ∧ search_client (fun _ => (none : Option (Encoding Char))) (Except.ok [])
        10 0 8000 "not-a-model" "summary,text"
      = SearchResponse.noResults [] "" 0 "No results found." :=
  unsupported_scheme_error (fun _ => (none : Option (Encoding Char)))
    [Point.mk 1 []] 10 0 8000 "not-a-model" "summary,text" 123 "lead-1"
    rfl (by decide)

/-- Claim C9 counterexample: the `/search-client` endpoint's filter does
not carry a caller-supplied client identifier — it is the constant
single-key filter on `client_id == 123` — and the `/search-client-lead`
endpoint always filters on both keys, `lead_id` being required. -/
theorem filter_hardcoded_counterexample :
    decide (search_client_filter = [("client_id", FilterValue.int 456)]) = false
    ∧ search_client_filter = [("client_id", FilterValue.int 123)]
    ∧ search_client_lead_filter 456 "lead-1"
        = [("client_id", FilterValue.int 456), ("lead_id", FilterValue.str "lead-1")] :=
  ⟨by decide, rfl, rfl⟩

/-- Claim C9 as amended: `/search-client` accepts no client identifier
parameter and its store filter is the hardcoded single-key equality
`client_id == 123`; `/search-client-lead` accepts `client_id` as a
required integer and `lead_id` as a required (not optional) string and
its filter ANDs both keys. -/
theorem endpoint_filter_shapes (client_id : Int) (lead_id : String) :
    search_client_filter = [("client_id", FilterValue.int 123)]
    ∧ search_client_filter.length = 1
    ∧ search_client_lead_filter client_id lead_id
        = [("client_id", FilterValue.int client_id),
           ("lead_id", FilterValue.str lead_id)]
    ∧ (search_client_lead_filter client_id lead_id).length = 2 :=
  ⟨rfl, rfl, rfl, rfl⟩

/-- Claim C10: a non-empty fetched batch with `offset` at or beyond its
length produces the success shape with empty points, empty context and
zero token count, still carrying limit, offset, fields, model and
max_tokens — a third shape bearing neither a message key nor an error
key. -/
theorem offset_beyond_batch {τ : Type} (registry : String → Option (Encoding τ))
    (enc : Encoding τ) (points : List Point) (limit offset max_tokens : Nat)
    (model include_fields : String)
    (hreg : registry model = some enc)
    (hempty : enc.encode "" = [])
    (hne : points ≠ [])
    (hoff : points.length ≤ offset) :
    search_client registry (Except.ok points) limit offset max_tokens model
        include_fields
      = SearchResponse.results [] "" 0 limit offset (parse_fields include_fields)
          model max_tokens
    ∧ has_message (search_client registry (Except.ok points) limit offset
        max_tokens model include_fields) = false
    ∧ has_error (search_client registry (Except.ok points) limit offset
        max_tokens model include_fields) = false := by
  have hemp : points.isEmpty = false := by
    simpa [List.isEmpty_iff] using hne
  have hpage : page_points points offset limit = [] := by
    unfold page_points
    rw [List.drop_eq_nil_of_le, List.take_nil]
    unfold sort_points
    rw [(List.mergeSort_perm points ts_ge).length_eq]
    exact hoff
  have hprep : prepare_context_for_llm registry
      (extract_texts (parse_fields include_fields) []) model max_tokens
        = Except.ok ("", 0) := by
    rw [show extract_texts (parse_fields include_fields) [] = [] from rfl]
    rw [prepare_ok registry model enc [] max_tokens hreg]
    have hjoin : String.intercalate "\n" ([] : List String) = "" := rfl
    rw [hjoin, hempty]
    simp
  have hmain : search_client registry (Except.ok points) limit offset max_tokens
      model include_fields
        = SearchResponse.results [] "" 0 limit offset
            (parse_fields include_fields) model max_tokens := by
    simp [search_client, hemp, hpage, hprep]
  exact ⟨hmain, by rw [hmain]; rfl, by rw [hmain]; rfl⟩

/-- Witness for C10: one record, offset five. -/
theorem offset_beyond_batch_witness :
    search_client charRegistry (Except.ok [Point.mk 1 []]) 3 5 8000
        "gpt-4-turbo" "summary,text"
      = SearchResponse.results [] "" 0 3 5 (parse_fields "summary,text")
          "gpt-4-turbo" 8000
    ∧ has_message (search_client charRegistry (Except.ok [Point.mk 1 []]) 3 5
        8000 "gpt-4-turbo" "summary,text") = false
    ∧ has_error (search_client charRegistry (Except.ok [Point.mk 1 []]) 3 5
        8000 "gpt-4-turbo" "summary,text") = false :=
  offset_beyond_batch charRegistry charEncoding [Point.mk 1 []] 3 5 8000
    "gpt-4-turbo" "summary,text" rfl rfl (by decide) (by decide)

end DummyFastAPI
